import Mathlib

/-!
Shallow embedding of `custom_components/meteoagent_kindex/sensor.py`.

The integration fetches a forecast page once per interval, extracts one
K-index integer per day offset 0..19 (keyed by a `date_YYYYMMDD` CSS
selector), stores the results in a dict keyed `day_0`..`day_19`, and
exposes 20 read-only sensor views deriving severity and icon from the
stored value.

Modelling decisions (each noted at its definition):
- Python `datetime.date` is a year/month/day structure; `timedelta(days=n)`
  addition is iterated successor-day (Gregorian calendar rules).
- `strftime` zero-padded numeric fields are modelled by digit extraction;
  the 4-digit year field matches Python for years up to 9999.
- a BeautifulSoup document is abstracted to the mapping it induces from a
  CSS selector string to the stripped text of `select_one`'s result:
  a finite association list, `none` meaning "no element matches".
- Python runtime values reaching `int(...)` are modelled by `PyVal`;
  `int()` failure (ValueError/TypeError) is modelled as `Option.none`.
-/

namespace MeteoAgent

/-- Model of `datetime.date`: a Gregorian calendar date. -/
structure Date where
  year : Nat
  month : Nat
  day : Nat
deriving Repr, DecidableEq

/-- Gregorian leap-year rule, as implemented by `datetime`. -/
def isLeap (y : Nat) : Bool :=
  (y % 4 == 0 && y % 100 != 0) || y % 400 == 0

/-- Number of days in a month of a given year (Gregorian calendar). -/
def daysInMonth (y m : Nat) : Nat :=
  if m == 2 then (if isLeap y then 29 else 28)
  else if m == 4 || m == 6 || m == 9 || m == 11 then 30
  else 31

/-- Successor day in the Gregorian calendar. -/
def nextDay (d : Date) : Date :=
  if d.day < daysInMonth d.year d.month then ⟨d.year, d.month, d.day + 1⟩
  else if d.month < 12 then ⟨d.year, d.month + 1, 1⟩
  else ⟨d.year + 1, 1, 1⟩

/-- Model of `date + timedelta(days = n)` for nonnegative `n` (the source
only ever adds offsets `0..19`): iterated successor day. -/
def addDays (d : Date) : Nat → Date
  | 0 => d
  | n + 1 => addDays (nextDay d) n

/-- Two decimal digits, zero padded: the `%m` / `%d` fields of `strftime`
(month and day never exceed two digits for calendar dates). -/
def pad2 (n : Nat) : String :=
  String.mk [Nat.digitChar (n / 10 % 10), Nat.digitChar (n % 10)]

/-- Four decimal digits, zero padded: the `%Y` field of `strftime`,
faithful for years up to 9999 (all years this integration can meet). -/
def pad4 (n : Nat) : String :=
  String.mk [Nat.digitChar (n / 1000 % 10), Nat.digitChar (n / 100 % 10),
             Nat.digitChar (n / 10 % 10), Nat.digitChar (n % 10)]

/-- `target_date.strftime("%Y%m%d")` from `sensor.py` line 84. -/
def formatCompact (d : Date) : String :=
  pad4 d.year ++ pad2 d.month ++ pad2 d.day

/-- `target_date.strftime("%Y-%m-%d")` from `sensor.py` line 123. -/
def formatDash (d : Date) : String :=
  pad4 d.year ++ "-" ++ pad2 d.month ++ "-" ++ pad2 d.day

/-- Decimal digit string to number, most significant first. -/
def digitsToNat (l : List Char) : Nat :=
  l.foldl (fun acc c => 10 * acc + (c.toNat - 48)) 0

/-- Model of Python `str.strip()`: drop whitespace from both ends. -/
def pyStrip (s : String) : String :=
  String.mk (((s.toList.dropWhile Char.isWhitespace).reverse.dropWhile
    Char.isWhitespace).reverse)

/-- Model of Python `int(s)` on a string: surrounding whitespace ignored,
optional sign, then one or more decimal digits; `none` models the
`ValueError` raised otherwise. -/
def parseIntText (s : String) : Option Int :=
  let core : List Char → Option Int := fun ds =>
    if ds.isEmpty then none
    else if ds.all Char.isDigit then some (Int.ofNat (digitsToNat ds))
    else none
  match (pyStrip s).toList with
  | '-' :: rest => (core rest).map Int.neg
  | '+' :: rest => core rest
  | l => core l

/-- Split a character list at every occurrence of a separator character:
the list-level semantics of Python `str.split(sep)` for a one-character
separator (every occurrence splits; no collapsing of empty parts). -/
def splitChar (sep : Char) : List Char → List (List Char)
  | [] => [[]]
  | x :: xs =>
    match splitChar sep xs with
    | [] => [[x]]
    | h :: t => if x == sep then [] :: h :: t else (x :: h) :: t

/-- Model of Python `s.split(sep)` for a one-character separator. -/
def pySplit (s : String) (sep : Char) : List String :=
  (splitChar sep s.toList).map String.mk

/-- A Python runtime value in a position where the source applies
`int(...)` under `try/except (ValueError, TypeError)`. -/
inductive PyVal where
  | pyInt (n : Int)
  | pyStr (s : String)
  | pyNone
deriving Repr, DecidableEq

/-- Model of the `int(value)` conversion: an integer converts to itself, a
string is parsed, `None` raises `TypeError` (modelled as `none`). -/
def pyToInt : PyVal → Option Int
  | .pyInt n => some n
  | .pyStr s => parseIntText s
  | .pyNone => none

/-- Abstraction of a parsed BeautifulSoup document: the finite mapping
from a CSS selector to the stripped text of the first matching element. -/
abbrev Markup := List (String × String)

/-- `soup.select_one(selector)`, returning the element's text: first
entry of the document mapping whose selector matches. -/
def selectOne (soup : Markup) (selector : String) : Option String :=
  (soup.find? (fun e => e.1 == selector)).map (fun e => e.2)

/-- `dict.get(key, default)` on the coordinator's data dict
(`sensor.py` lines 143, 156, 164). Keys in the dict are unique. -/
def dictGet (data : List (String × PyVal)) (key : String) (dflt : PyVal) : PyVal :=
  match data.find? (fun kv => kv.1 == key) with
  | some kv => kv.2
  | none => dflt

/-- The CSS selector built for one day offset
(`sensor.py` lines 83-87): `".date_{YYYYMMDD} .value__num"` for
`target_date = today + timedelta(days = day_offset)`. -/
def selectorFor (today : Date) (dayOffset : Nat) : String :=
  ".date_" ++ formatCompact (addDays today dayOffset) ++ " .value__num"

/-- Per-offset extraction, `sensor.py` lines 83-102: select the element
for the target date; default 0 when absent; `int(element.text.strip())`
when present, falling back to 0 on `ValueError`/`TypeError`. -/
def extractDay (soup : Markup) (today : Date) (dayOffset : Nat) : Int :=
  match selectOne soup (selectorFor today dayOffset) with
  | none => 0
  | some text =>
    match parseIntText (pyStrip text) with
    | some v => v
    | none => 0

/-- The dict key `f"day_{day_offset}"` (`sensor.py` line 105). -/
def dayKey (dayOffset : Nat) : String :=
  "day_" ++ toString dayOffset

/-- The result dict built by `MeteoAgentCoordinator._async_update_data`
(`sensor.py` lines 70-110) on the success path: `today` is captured once
before the loop (line 68), then each of the 20 day offsets is extracted
against `today + timedelta(days = day_offset)` and stored under
`day_{day_offset}`. -/
def updateData (today : Date) (soup : Markup) : List (String × PyVal) :=
  (List.range 20).map
    (fun dayOffset => (dayKey dayOffset, PyVal.pyInt (extractDay soup today dayOffset)))

/-- Outcome of the single `session.get` within the cycle's timeout:
either an HTTP response completed (with any status code, success or not,
whose body `resp.text()` parses to the given document) or the request
timed out or failed to connect. -/
inductive NetOutcome where
  | response (status : Nat) (body : Markup)
  | timeout
  | connectionError
deriving Repr, DecidableEq

/-- Exceptions escaping `_async_update_data`: the `asyncio.TimeoutError`
from `async_timeout.timeout(10)` and `aiohttp`'s client connection
error. -/
inductive CycleError where
  | timeoutError
  | clientConnectionError
deriving Repr, DecidableEq

/-- `MeteoAgentCoordinator._async_update_data` (`sensor.py` lines 64-110)
over a network outcome. A timeout or connection failure propagates as an
exception (`Except.error`). Note the source never inspects `resp.status`
(no `raise_for_status`), so a completed response of any status code is
parsed normally and returns a result dict. -/
def asyncUpdateData (today : Date) (net : NetOutcome) : Except CycleError (List (String × PyVal)) :=
  match net with
  | .timeout => .error .timeoutError
  | .connectionError => .error .clientConnectionError
  | .response _ body => .ok (updateData today body)

/-- Modelled from the spec: the host `DataUpdateCoordinator` refresh step
is not under `src/` (it is platform machinery the spec lists as an
external collaborator). Per the spec, a fetcher failure ends the cycle
as `Failed` and "previous Forecast Snapshot remains the externally
visible one", while a successful `_async_update_data` atomically replaces
the visible snapshot. -/
def publishCycle (prev : Option (List (String × PyVal))) (today : Date)
    (net : NetOutcome) : Option (List (String × PyVal)) :=
  match asyncUpdateData today net with
  | .ok snap => some snap
  | .error _ => prev

/-- Identity fields of `KIndexSensor`, all set in `__init__`
(`sensor.py` lines 115-137) and never reassigned afterwards. -/
structure KIndexSensor where
  sensor_type : String
  attr_name : String
  attr_unique_id : String
  sensorDate : String
deriving Repr, DecidableEq

/-- `KIndexSensor.__init__` (`sensor.py` lines 115-137):
`day_number = sensor_type.split('_')[1]`, the display date is
`date.today() + timedelta(days=int(day_number))` formatted `%Y-%m-%d`
and frozen into `self._date`. `none` models the `IndexError` (no second
split part) or `ValueError` (non-integer part) Python would raise; the
setup code only ever passes `day_0`..`day_19`, so offsets are
nonnegative. -/
def mkSensor (constructionToday : Date) (sensorType : String) : Option KIndexSensor :=
  match (pySplit sensorType '_')[1]? with
  | none => none
  | some dayNumber =>
    match parseIntText dayNumber with
    | none => none
    | some n =>
      some { sensor_type := sensorType
           , attr_name :=
               if dayNumber == "0" then "MeteoAgent K-index Today"
               else if dayNumber == "1" then "MeteoAgent K-index Tomorrow"
               else "MeteoAgent K-index Day " ++ dayNumber
           , attr_unique_id := "meteoagent_kindex_" ++ sensorType
           , sensorDate := formatDash (addDays constructionToday n.toNat) }

/-- `KIndexSensor.icon` (`sensor.py` lines 139-150):
`int(coordinator.data.get(sensor_type, 0))` then a two-tier threshold
ladder; conversion failure yields the help icon. -/
def icon (data : List (String × PyVal)) (s : KIndexSensor) : String :=
  match pyToInt (dictGet data s.sensor_type (.pyInt 0)) with
  | none => "mdi:help-circle-outline"
  | some value =>
    if value ≥ 5 then "mdi:head-alert-outline"
    else if value ≥ 4 then "mdi:head-snowflake-outline"
    else "mdi:head-heart-outline"

/-- `KIndexSensor.native_value` (`sensor.py` lines 152-158). -/
def nativeValue (data : List (String × PyVal)) (s : KIndexSensor) : Int :=
  match pyToInt (dictGet data s.sensor_type (.pyInt 0)) with
  | some v => v
  | none => 0

/-- `KIndexSensor._get_kindex_interpretation` (`sensor.py` lines
174-188): `None` input and conversion failures give `"Unknown"`,
otherwise a three-tier threshold ladder ending in `"None"`. -/
def getKindexInterpretation (value : PyVal) : String :=
  if value = .pyNone then "Unknown"
  else
    match pyToInt value with
    | none => "Unknown"
    | some v =>
      if v ≥ 5 then "High"
      else if v ≥ 4 then "Medium"
      else if v ≥ 1 then "Low"
      else "None"

/-- The attribute dict returned by `KIndexSensor.extra_state_attributes`
(`sensor.py` lines 160-172). -/
structure StateAttributes where
  severity : String
  date : String
deriving Repr, DecidableEq

/-- `KIndexSensor.extra_state_attributes` (`sensor.py` lines 160-172):
severity of the converted current value (`"Unknown"` if conversion
fails), and the date string frozen at construction. -/
def extraStateAttributes (data : List (String × PyVal)) (s : KIndexSensor) : StateAttributes :=
  { severity :=
      match pyToInt (dictGet data s.sensor_type (.pyInt 0)) with
      | some v => getKindexInterpretation (.pyInt v)
      | none => "Unknown"
  , date := s.sensorDate }

/-! Shared lemmas about the coordinator's result dict and the severity
function, used by several of the claim theorems below. -/

/-- Looking up `day_o` in the result dict yields exactly the per-offset
extraction result, wrapped as a Python int. -/
theorem lookup_updateData (today : Date) (soup : Markup) (o : Nat) (h : o < 20) :
    dictGet (updateData today soup) (dayKey o) (.pyInt 0) = .pyInt (extractDay soup today o) := by
  interval_cases o <;> rfl

/-- The keys of the result dict are `day_0 .. day_19` in order. -/
theorem keys_updateData (today : Date) (soup : Markup) :
    (updateData today soup).map Prod.fst = (List.range 20).map dayKey := by
  simp [updateData, List.map_map]

/-- Every value stored in the result dict is a Python int. -/
theorem values_updateData_pyInt (today : Date) (soup : Markup) :
    ∀ kv ∈ updateData today soup, ∃ m, kv.2 = PyVal.pyInt m := by
  intro kv hkv
  simp [updateData] at hkv
  obtain ⟨i, _, rfl⟩ := hkv
  exact ⟨_, rfl⟩

/-- Any `dict.get` with integer default over the result dict yields a
Python int, whether or not the key is present. -/
theorem dictGet_updateData_pyInt (today : Date) (soup : Markup) (key : String) :
    ∃ m, dictGet (updateData today soup) key (.pyInt 0) = .pyInt m := by
  unfold dictGet
  cases hfind : (updateData today soup).find? (fun kv => kv.1 == key) with
  | none => exact ⟨0, rfl⟩
  | some kv =>
    obtain ⟨m, hm⟩ := values_updateData_pyInt today soup kv (List.mem_of_find?_eq_some hfind)
    exact ⟨m, by simp [hm]⟩

/-- Characterization of the severity function on integer input: the
three-tier threshold ladder of `_get_kindex_interpretation`. -/
theorem interp_pyInt (n : Int) :
    getKindexInterpretation (.pyInt n) =
      if n ≥ 5 then "High" else if n ≥ 4 then "Medium"
      else if n ≥ 1 then "Low" else "None" := by
  simp only [getKindexInterpretation, pyToInt]
  split
  · simp_all
  · rfl

/-- Integer input never classifies as `"Unknown"`. -/
theorem interp_pyInt_ne_unknown (n : Int) :
    getKindexInterpretation (.pyInt n) ≠ "Unknown" := by
  rw [interp_pyInt]
  split_ifs <;> decide

/-- The compact date key always has exactly eight characters. -/
theorem formatCompact_length (d : Date) : (formatCompact d).length = 8 := by
  simp [formatCompact, pad4, pad2, String.length_append]

/-- C1: for every markup input, the result dict of a successful update
cycle contains exactly one entry keyed `day_o` for every offset
`o < 20`; when the day's element is missing or its text unparseable, the
entry is present with the sentinel value 0, never omitted. -/
theorem snapshot_exactly_one_entry_per_offset (today : Date) (soup : Markup)
    (o : Nat) (h : o < 20) :
    ((updateData today soup).map Prod.fst).count (dayKey o) = 1 ∧
    dictGet (updateData today soup) (dayKey o) (.pyInt 0) = .pyInt (extractDay soup today o) ∧
    (selectOne soup (selectorFor today o) = none → extractDay soup today o = 0) ∧
    (∀ t, selectOne soup (selectorFor today o) = some t →
      parseIntText (pyStrip t) = none → extractDay soup today o = 0) := by
  refine ⟨?_, lookup_updateData today soup o h, ?_, ?_⟩
  · rw [keys_updateData]
    interval_cases o <;> decide
  · intro hsel
    simp [extractDay, hsel]
  · intro t hsel hparse
    simp [extractDay, hsel, hparse]

/-- Witness for C1 at a concrete cycle: empty markup, offset 0. -/
theorem snapshot_exactly_one_entry_per_offset_witness :
    ((updateData ⟨2024, 3, 15⟩ []).map Prod.fst).count (dayKey 0) = 1 ∧
    dictGet (updateData ⟨2024, 3, 15⟩ []) (dayKey 0) (.pyInt 0) =
      .pyInt (extractDay [] ⟨2024, 3, 15⟩ 0) := by
  have h := snapshot_exactly_one_entry_per_offset ⟨2024, 3, 15⟩ [] 0 (by decide)
  exact ⟨h.1, h.2.1⟩

/-- C2: per-day extraction has exactly three outcomes and is a total
function (no exception for malformed input): element found with
integer-parsing text stores that integer, found with unparseable text
stores sentinel 0, not found stores sentinel 0; and each offset of the
cycle resolves from its own extraction only, so one offset's parse
failure never blocks another offset. -/
theorem extraction_three_outcomes (today : Date) (soup : Markup) (o : Nat) :
    (selectOne soup (selectorFor today o) = none → extractDay soup today o = 0) ∧
    (∀ t v, selectOne soup (selectorFor today o) = some t →
      parseIntText (pyStrip t) = some v → extractDay soup today o = v) ∧
    (∀ t, selectOne soup (selectorFor today o) = some t →
      parseIntText (pyStrip t) = none → extractDay soup today o = 0) ∧
    (∀ o2, o2 < 20 →
      dictGet (updateData today soup) (dayKey o2) (.pyInt 0) =
        .pyInt (extractDay soup today o2)) := by
  refine ⟨?_, ?_, ?_, fun o2 h2 => lookup_updateData today soup o2 h2⟩
  · intro hsel
    simp [extractDay, hsel]
  · intro t v hsel hparse
    simp [extractDay, hsel, hparse]
  · intro t hsel hparse
    simp [extractDay, hsel, hparse]

/-- Witness for C2: a markup whose day-0 element text is unparseable
yields sentinel 0 at offset 0 while offset 0 still resolves in the dict. -/
theorem extraction_three_outcomes_witness :
    extractDay [(".date_20240315 .value__num", "N/A")] ⟨2024, 3, 15⟩ 0 = 0 ∧
    dictGet (updateData ⟨2024, 3, 15⟩ [(".date_20240315 .value__num", "N/A")])
      (dayKey 0) (.pyInt 0) = .pyInt 0 := by
  have h := extraction_three_outcomes ⟨2024, 3, 15⟩ [(".date_20240315 .value__num", "N/A")] 0
  have h0 : extractDay [(".date_20240315 .value__num", "N/A")] ⟨2024, 3, 15⟩ 0 = 0 :=
    h.2.2.1 "N/A" rfl rfl
  exact ⟨h0, by rw [h.2.2.2 0 (by decide), h0]⟩

/-- C5: the reference date is a single value captured at cycle start:
every offset `o < 20` of the same cycle is resolved against
`today + o` days, the lookup key is the compact `YYYYMMDD` form of that
target date, and that key always has exactly eight digits. -/
theorem cycle_uses_single_reference_date (today : Date) (soup : Markup)
    (o : Nat) (h : o < 20) :
    dictGet (updateData today soup) (dayKey o) (.pyInt 0) =
      .pyInt (extractDay soup today o) ∧
    selectorFor today o = ".date_" ++ formatCompact (addDays today o) ++ " .value__num" ∧
    (formatCompact (addDays today o)).length = 8 := by
  exact ⟨lookup_updateData today soup o h, rfl, formatCompact_length _⟩

/-- Witness for C5 at offset 3: the key is the compact form of the
reference date advanced three days. -/
theorem cycle_uses_single_reference_date_witness :
    selectorFor ⟨2024, 3, 15⟩ 3 = ".date_" ++ formatCompact (addDays ⟨2024, 3, 15⟩ 3) ++ " .value__num" ∧
    selectorFor ⟨2024, 3, 15⟩ 3 = ".date_20240318 .value__num" ∧
    (formatCompact (addDays ⟨2024, 3, 15⟩ 3)).length = 8 := by
  have h := cycle_uses_single_reference_date ⟨2024, 3, 15⟩ [] 3 (by decide)
  exact ⟨h.2.1, by decide, h.2.2⟩

/-- C3: severity is a pure function of the value with thresholds
`>= 5 → High`, `= 4 → Medium`, `1..3 → Low`, `0 → None`; `None` input and
inputs that fail integer conversion give `Unknown`; boundary instances
0, 1, 3, 4, 5, 9 classify as stated. -/
theorem severity_thresholds :
    (∀ v : Int, 5 ≤ v → getKindexInterpretation (.pyInt v) = "High") ∧
    (∀ v : Int, 4 ≤ v → v < 5 → getKindexInterpretation (.pyInt v) = "Medium") ∧
    (∀ v : Int, 1 ≤ v → v < 4 → getKindexInterpretation (.pyInt v) = "Low") ∧
    getKindexInterpretation (.pyInt 0) = "None" ∧
    getKindexInterpretation .pyNone = "Unknown" ∧
    (∀ s : String, parseIntText s = none → getKindexInterpretation (.pyStr s) = "Unknown") ∧
    getKindexInterpretation (.pyInt 1) = "Low" ∧
    getKindexInterpretation (.pyInt 3) = "Low" ∧
    getKindexInterpretation (.pyInt 4) = "Medium" ∧
    getKindexInterpretation (.pyInt 5) = "High" ∧
    getKindexInterpretation (.pyInt 9) = "High" := by
  refine ⟨?_, ?_, ?_, by decide, by decide, ?_, by decide, by decide, by decide, by decide, by decide⟩
  · intro v hv
    rw [interp_pyInt]
    split_ifs <;> first | rfl | omega
  · intro v hv hv5
    rw [interp_pyInt]
    split_ifs <;> first | rfl | omega
  · intro v hv hv4
    rw [interp_pyInt]
    split_ifs <;> first | rfl | omega
  · intro s hs
    simp [getKindexInterpretation, pyToInt, hs]

/-- Witness for C3 at value 7 and at an unparseable string. -/
theorem severity_thresholds_witness :
    getKindexInterpretation (.pyInt 7) = "High" ∧
    getKindexInterpretation (.pyStr "storm") = "Unknown" := by
  exact ⟨severity_thresholds.1 7 (by decide),
    severity_thresholds.2.2.2.2.2.1 "storm" rfl⟩

/-- C6: round-trip: a value `v` present as the numeric text of the
element keyed by the compact date of `reference_date + o` is returned
unchanged by `native_value` of the view at offset `o`, and its severity
attribute classifies that same value. -/
theorem roundtrip_injected_value (today : Date) (soup : Markup) (o : Nat)
    (s : KIndexSensor) (v : Int) (t : String) (h : o < 20)
    (hs : s.sensor_type = dayKey o)
    (hsel : selectOne soup (selectorFor today o) = some t)
    (hparse : parseIntText (pyStrip t) = some v) :
    nativeValue (updateData today soup) s = v ∧
    (extraStateAttributes (updateData today soup) s).severity =
      getKindexInterpretation (.pyInt v) := by
  have hex : extractDay soup today o = v := by
    simp [extractDay, hsel, hparse]
  have hget : dictGet (updateData today soup) s.sensor_type (.pyInt 0) = .pyInt v := by
    rw [hs, lookup_updateData today soup o h, hex]
  exact ⟨by simp [nativeValue, hget, pyToInt], by simp [extraStateAttributes, hget, pyToInt]⟩

/-- Witness for C6: the spec's example markup
`<div class="date_20240315"><span class="value__num">4</span></div>` with
reference date 2024-03-15 and offset 0 yields value 4, severity Medium. -/
theorem roundtrip_injected_value_witness :
    nativeValue (updateData ⟨2024, 3, 15⟩ [(".date_20240315 .value__num", "4")])
      { sensor_type := "day_0", attr_name := "MeteoAgent K-index Today"
      , attr_unique_id := "meteoagent_kindex_day_0", sensorDate := "2024-03-15" } = 4 ∧
    (extraStateAttributes (updateData ⟨2024, 3, 15⟩ [(".date_20240315 .value__num", "4")])
      { sensor_type := "day_0", attr_name := "MeteoAgent K-index Today"
      , attr_unique_id := "meteoagent_kindex_day_0", sensorDate := "2024-03-15" }).severity = "Medium" := by
  have h := roundtrip_injected_value ⟨2024, 3, 15⟩ [(".date_20240315 .value__num", "4")] 0
    { sensor_type := "day_0", attr_name := "MeteoAgent K-index Today"
    , attr_unique_id := "meteoagent_kindex_day_0", sensorDate := "2024-03-15" }
    4 "4" (by decide) rfl rfl rfl
  exact ⟨h.1, h.2.trans (by decide)⟩

/-- C8: the icon is derived from the converted current value by a
two-tier threshold ladder: `>= 5` the alert icon, exactly 4 the second
icon, anything smaller the default icon; a failed conversion yields the
help icon. -/
theorem icon_thresholds (data : List (String × PyVal)) (s : KIndexSensor) :
    (∀ v : Int, pyToInt (dictGet data s.sensor_type (.pyInt 0)) = some v →
      (5 ≤ v → icon data s = "mdi:head-alert-outline") ∧
      (4 ≤ v → v < 5 → icon data s = "mdi:head-snowflake-outline") ∧
      (v < 4 → icon data s = "mdi:head-heart-outline")) ∧
    (pyToInt (dictGet data s.sensor_type (.pyInt 0)) = none →
      icon data s = "mdi:help-circle-outline") := by
  constructor
  · intro v hv
    refine ⟨fun h5 => ?_, fun h4 h5 => ?_, fun h4 => ?_⟩ <;>
      · simp only [icon, hv]
        split_ifs <;> first | rfl | omega
  · intro hv
    simp [icon, hv]

/-- Witness for C8: value 5 yields the alert icon, value 4 the second
icon, value 3 the default icon. -/
theorem icon_thresholds_witness :
    icon [("day_0", .pyInt 5)]
      { sensor_type := "day_0", attr_name := "", attr_unique_id := "", sensorDate := "" } =
      "mdi:head-alert-outline" ∧
    icon [("day_0", .pyInt 4)]
      { sensor_type := "day_0", attr_name := "", attr_unique_id := "", sensorDate := "" } =
      "mdi:head-snowflake-outline" ∧
    icon [("day_0", .pyInt 3)]
      { sensor_type := "day_0", attr_name := "", attr_unique_id := "", sensorDate := "" } =
      "mdi:head-heart-outline" := by
  refine
    ⟨((icon_thresholds [("day_0", .pyInt 5)]
        { sensor_type := "day_0", attr_name := "", attr_unique_id := "", sensorDate := "" }).1
        5 rfl).1 (by decide),
     ((icon_thresholds [("day_0", .pyInt 4)]
        { sensor_type := "day_0", attr_name := "", attr_unique_id := "", sensorDate := "" }).1
        4 rfl).2.1 (by decide) (by decide),
     ((icon_thresholds [("day_0", .pyInt 3)]
        { sensor_type := "day_0", attr_name := "", attr_unique_id := "", sensorDate := "" }).1
        3 rfl).2.2 (by decide)⟩

/-- C9: the extractor performs no range validation: an integer outside
the conventional 0-9 K-index range parsed from the day's element text is
stored in the result dict unchanged and returned as-is by
`native_value`. -/
theorem no_range_validation (today : Date) (soup : Markup) (o : Nat)
    (s : KIndexSensor) (v : Int) (t : String) (h : o < 20)
    (hrange : v < 0 ∨ 9 < v) (hs : s.sensor_type = dayKey o)
    (hsel : selectOne soup (selectorFor today o) = some t)
    (hparse : parseIntText (pyStrip t) = some v) :
    dictGet (updateData today soup) (dayKey o) (.pyInt 0) = .pyInt v ∧
    nativeValue (updateData today soup) s = v := by
  have hex : extractDay soup today o = v := by
    simp [extractDay, hsel, hparse]
  have hget : dictGet (updateData today soup) (dayKey o) (.pyInt 0) = .pyInt v := by
    rw [lookup_updateData today soup o h, hex]
  exact ⟨hget, by simp [nativeValue, hs, hget, pyToInt]⟩

/-- Witness for C9: the out-of-range value 15 is stored and returned
unchanged. -/
theorem no_range_validation_witness :
    dictGet (updateData ⟨2024, 3, 15⟩ [(".date_20240315 .value__num", "15")])
      (dayKey 0) (.pyInt 0) = .pyInt 15 ∧
    nativeValue (updateData ⟨2024, 3, 15⟩ [(".date_20240315 .value__num", "15")])
      { sensor_type := "day_0", attr_name := "MeteoAgent K-index Today"
      , attr_unique_id := "meteoagent_kindex_day_0", sensorDate := "2024-03-15" } = 15 := by
  exact no_range_validation ⟨2024, 3, 15⟩ [(".date_20240315 .value__num", "15")] 0
    { sensor_type := "day_0", attr_name := "MeteoAgent K-index Today"
    , attr_unique_id := "meteoagent_kindex_day_0", sensorDate := "2024-03-15" }
    15 "15" (by decide) (by decide) rfl rfl rfl

/-- C4 counterexample: the source never inspects the HTTP status code
(there is no `raise_for_status`), so a completed response with
non-success status 404 does not fail the cycle: `_async_update_data`
returns a result dict normally and a new snapshot is published. -/
theorem fetch_nonsuccess_status_not_failed :
    asyncUpdateData ⟨2024, 3, 15⟩ (.response 404 []) =
      .ok (updateData ⟨2024, 3, 15⟩ []) ∧
    publishCycle none ⟨2024, 3, 15⟩ (.response 404 []) =
      some (updateData ⟨2024, 3, 15⟩ []) := by
  exact ⟨rfl, rfl⟩

/-- C4 amended: the cycle fails with a fetch error on timeout or
connection failure, and on such a failure the previously visible
snapshot is retained unchanged; a completed HTTP response of any status
code, success or not, is parsed normally and publishes a new snapshot. -/
theorem fetch_failure_modes (prev : Option (List (String × PyVal))) (today : Date) :
    asyncUpdateData today .timeout = .error .timeoutError ∧
    asyncUpdateData today .connectionError = .error .clientConnectionError ∧
    publishCycle prev today .timeout = prev ∧
    publishCycle prev today .connectionError = prev ∧
    (∀ status body, asyncUpdateData today (.response status body) =
        .ok (updateData today body) ∧
      publishCycle prev today (.response status body) =
        some (updateData today body)) := by
  exact ⟨rfl, rfl, rfl, rfl, fun status body => ⟨rfl, rfl⟩⟩

/-- C7: the view's calendar-date display attribute is computed once at
construction, from the construction-time reference date plus the view's
day offset, and the attribute dict returns that same frozen string no
matter which snapshot the coordinator currently holds. -/
theorem display_date_frozen (today : Date) (n : Nat) (h : n < 20) :
    ∃ s, mkSensor today (dayKey n) = some s ∧
      s.sensorDate = formatDash (addDays today n) ∧
      ∀ data data2 : List (String × PyVal),
        (extraStateAttributes data s).date = (extraStateAttributes data2 s).date ∧
        (extraStateAttributes data s).date = formatDash (addDays today n) := by
  interval_cases n <;> exact ⟨_, rfl, rfl, fun data data2 => ⟨rfl, rfl⟩⟩

/-- Witness for C7: the sensor for offset 2 built on 2024-03-15 carries
the frozen date 2024-03-17 across two different snapshots. -/
theorem display_date_frozen_witness :
    ∃ s, mkSensor ⟨2024, 3, 15⟩ (dayKey 2) = some s ∧
      s.sensorDate = formatDash (addDays ⟨2024, 3, 15⟩ 2) ∧
      ∀ data data2 : List (String × PyVal),
        (extraStateAttributes data s).date = (extraStateAttributes data2 s).date ∧
        (extraStateAttributes data s).date = formatDash (addDays ⟨2024, 3, 15⟩ 2) := by
  exact display_date_frozen ⟨2024, 3, 15⟩ 2 (by decide)

/-- C10: for every markup input the result dict has exactly 20 entries
(so the coordinator's empty-result error branch never fires), every
stored value is an integer, and on coordinator-produced data the
conversion-failure branches of the view accessors are unreachable:
severity is never `"Unknown"` and the icon is never the help icon. -/
theorem degraded_branches_unreachable (today : Date) (soup : Markup) (s : KIndexSensor) :
    (updateData today soup).length = 20 ∧
    updateData today soup ≠ [] ∧
    (∃ m, dictGet (updateData today soup) s.sensor_type (.pyInt 0) = .pyInt m) ∧
    (extraStateAttributes (updateData today soup) s).severity ≠ "Unknown" ∧
    icon (updateData today soup) s ≠ "mdi:help-circle-outline" := by
  obtain ⟨m, hm⟩ := dictGet_updateData_pyInt today soup s.sensor_type
  refine ⟨by simp [updateData], by simp [updateData], ⟨m, hm⟩, ?_, ?_⟩
  · simp only [extraStateAttributes, hm, pyToInt]
    exact interp_pyInt_ne_unknown m
  · simp only [icon, hm, pyToInt]
    split_ifs <;> decide

/-- Witness for C10 at a concrete cycle: empty markup, the day-0 view. -/
theorem degraded_branches_unreachable_witness :
    (updateData ⟨2024, 3, 15⟩ []).length = 20 ∧
    (extraStateAttributes (updateData ⟨2024, 3, 15⟩ [])
      { sensor_type := "day_0", attr_name := "", attr_unique_id := "", sensorDate := "" }).severity ≠
      "Unknown" := by
  have h := degraded_branches_unreachable ⟨2024, 3, 15⟩ []
    { sensor_type := "day_0", attr_name := "", attr_unique_id := "", sensorDate := "" }
  exact ⟨h.1, h.2.2.2.1⟩

end MeteoAgent
